import Mathlib

/-!
Verification of the OpenPM AI backend proxy.

This file gives a shallow embedding of the proxy's generation router
(`app.post('/api/generate')` and `app.get('/api/models')` in the backend
server), the OAuth PKCE engine, token exchange, project discovery, the
loopback callback server's pending-auth table, and the auth polling
endpoint, all translated from the TypeScript source.  Network calls
(`fetch`) are modelled as oracle parameters: the caller supplies the
outcome each upstream call would have produced, and the embedding records
the outbound calls the handler issues.
-/

namespace OpenPM

/-- JavaScript truthiness for an optional string header / field: `undefined`
(absent) and the empty string are falsy, every other string is truthy. -/
def jsTruthy : Option String → Bool
  | none => false
  | some s => s ≠ ""

/-- JavaScript `a || b` on optional strings: returns `a` when it is truthy,
otherwise `b`. -/
def jsOr (a b : Option String) : Option String :=
  if jsTruthy a then a else b

/-- Whether `needle` occurs contiguously inside `hay`. -/
def listContainsSub (needle : List Char) : List Char → Bool
  | [] => List.isPrefixOf needle []
  | a :: rest => List.isPrefixOf needle (a :: rest) || listContainsSub needle rest

/-- JS `hay.includes(needle)` for strings. -/
def strIncludes (hay needle : String) : Bool :=
  listContainsSub needle.toList hay.toList

/-! ## Generation router (`app.post('/api/generate')`, server index, lines 625-783) -/

/-- Upstream base URLs (server index, lines 95-97). -/
def ANTIGRAVITY_PROD_URL : String := "https://cloudcode-pa.googleapis.com"

def GEMINI_API_BASE : String := "https://generativelanguage.googleapis.com/v1beta"

/-- Outcome of one upstream `fetch`: a network-level exception or an HTTP
response with a status and a body text. -/
inductive FetchOutcome where
  | netError
  | resp (status : Nat) (body : String)
deriving DecidableEq, Repr

/-- `response.ok` of the Fetch API: status in the range 200-299. -/
def statusOk (s : Nat) : Bool := 200 ≤ s && s ≤ 299

/-- One outbound upstream call issued by the router.  `target` is `"public"`
for the public Gemini endpoint (API-key strategy) and `"internal"` for the
Cloud Code internal endpoint (OAuth strategy); `authorization` is the
`Authorization` header value sent, and `bodyModel` the model name placed
inside the wrapped request body (the API-key strategy passes the model in
the URL instead). -/
structure OutboundCall where
  target : String
  url : String
  authorization : Option String
  bodyModel : Option String
deriving DecidableEq, Repr

/-- What the router sends back to its own client. -/
inductive ClientReply where
  | jsonError (status : Nat) (msg : String)
  | rawRelay (status : Nat) (body : String)
  | streamRelay (contentType : String)
  | taggedJson (body : String) (source : String)
deriving DecidableEq, Repr

structure RouterResult where
  reply : ClientReply
  calls : List OutboundCall
deriving DecidableEq, Repr

/-- The incoming `/api/generate` request: the relevant headers and body
fields (`model` and `stream` are destructured from the body; the rest of
the body is opaque to the routing logic). -/
structure GenRequest where
  clientAuth : Option String
  xProjectId : Option String
  xGoogApiKey : Option String
  model : Option String
  stream : Bool
deriving DecidableEq, Repr

/-- Server-side configuration/environment: the `.env.local` API key and the
result of the best-effort IDE credential-store lookup (`getIdeToken`). -/
structure GenEnv where
  ideToken : Option String
  localApiKey : Option String
deriving DecidableEq, Repr

/-- Outcomes of the (up to two) upstream fetches the handler may issue. -/
structure UpstreamOracle where
  apiKeyOutcome : FetchOutcome
  oauthOutcome : FetchOutcome
deriving DecidableEq, Repr

/-- Credential resolution shared by `/api/generate` (lines 626-634) and
`/api/models` (lines 271-279): start from the client `Authorization`
header, and overwrite it with `Bearer <ideToken>` whenever the IDE
credential-store lookup produced a token. -/
def resolveAuthToken (clientAuth ideToken : Option String) : Option String :=
  match ideToken with
  | some t => some ("Bearer " ++ t)
  | none => clientAuth

/-- Static internal-to-public model remapping table (lines 660-668). -/
def modelMap : List (String × String) :=
  [("gemini-3-flash-preview", "gemini-2.5-flash"),
   ("gemini-3-flash", "gemini-2.5-flash"),
   ("gemini-3-pro-preview", "gemini-2.5-pro"),
   ("gemini-3-pro-low", "gemini-2.5-pro"),
   ("gemini-3-pro-high", "gemini-2.5-pro"),
   ("gemini-2.0-flash-exp", "gemini-2.5-flash"),
   ("gemini-2.0-flash", "gemini-2.0-flash")]

/-- `if (modelMap[model]) mappedModel = modelMap[model]` (lines 670-673). -/
def mappedModelOf (model : String) : String :=
  match modelMap.lookup model with
  | some m => m
  | none => model

/-- RPC method and query-string pieces chosen from `stream` (lines 647-648, 676). -/
def methodOf (stream : Bool) : String :=
  if stream then "streamGenerateContent" else "generateContent"

def altOf (stream : Bool) : String := if stream then "?alt=sse" else ""

def sepOf (stream : Bool) : String := if stream then "&" else "?"

/-- URL of the API-key strategy's call (line 677). -/
def apiKeyUrl (apiKey model : String) (stream : Bool) : String :=
  GEMINI_API_BASE ++ "/models/" ++ mappedModelOf model ++ ":" ++ methodOf stream
    ++ altOf stream ++ sepOf stream ++ "key=" ++ apiKey

/-- Terminality rule of the API-key strategy (line 685): a 2xx or an exact
400 is kept as the final response; anything else (and a network error)
yields nothing and falls through. -/
def apiKeyTerminal : FetchOutcome → Option (Nat × String)
  | .netError => none
  | .resp s b => if statusOk s || s == 400 then some (s, b) else none

/-- URL of the OAuth strategy's call (line 724). -/
def oauthUrl (stream : Bool) : String :=
  ANTIGRAVITY_PROD_URL ++ "/v1internal:" ++ methodOf stream ++ altOf stream

/-- Internal resource-path remapping (lines 706-713): models whose name
contains `gemini-3` are rewritten to the full resource path. -/
def internalModelOf (model project : String) : String :=
  if strIncludes model "gemini-3" then
    "projects/" ++ project ++ "/locations/us-central1/publishers/google/models/" ++ model
  else model

/-- OAuth strategy outcome (lines 740-758): a 2xx keeps the response with
source `cloud-ai-companion-cracked`; a non-2xx reconstructs the response
(same status and body) with source `cloud-ai-companion-failed`; a network
error yields nothing. -/
def oauthTerminal : FetchOutcome → Option (Nat × String × String)
  | .netError => none
  | .resp s b =>
      if statusOk s then some (s, b, "cloud-ai-companion-cracked")
      else some (s, b, "cloud-ai-companion-failed")

/-- Strategy 1: the API-key direct call (lines 656-698).  Returns the calls
issued and the terminal response, if any, tagged `gemini-api-key-direct`. -/
def strategy1 (apiKey : Option String) (model : String) (stream : Bool)
    (o : FetchOutcome) : List OutboundCall × Option (Nat × String × String) :=
  if jsTruthy apiKey then
    ([{ target := "public", url := apiKeyUrl (apiKey.getD "") model stream,
        authorization := none, bodyModel := none }],
     (apiKeyTerminal o).map fun sb => (sb.1, sb.2, "gemini-api-key-direct"))
  else ([], none)

/-- Strategy 2: the Cloud Code internal call (lines 700-763). -/
def strategy2 (authToken xProjectId : Option String) (model : String)
    (stream : Bool) (o : FetchOutcome) :
    List OutboundCall × Option (Nat × String × String) :=
  if jsTruthy authToken then
    ([{ target := "internal", url := oauthUrl stream, authorization := authToken,
        bodyModel := some (internalModelOf model
          ((jsOr xProjectId (some "nodal-zodiac-7f3h4")).getD "")) }],
     oauthTerminal o)
  else ([], none)

/-- Final response relay (lines 765-783): no terminal response means 503;
a non-2xx terminal response is relayed raw (status and body, no tag);
a 2xx is piped as an event stream when streaming, else returned as JSON
augmented with the `source` tag. -/
def respondStep (stream : Bool) : Option (Nat × String × String) → ClientReply
  | none => .jsonError 503 "All attempts failed. Check quota (Antigravity) or API Key."
  | some (s, b, src) =>
      if !statusOk s then .rawRelay s b
      else if stream then .streamRelay "text/event-stream"
      else .taggedJson b src

/-- The `/api/generate` handler (lines 625-783), as a function of the
request, the server environment and the upstream oracle. -/
def generate (env : GenEnv) (req : GenRequest) (net : UpstreamOracle) : RouterResult :=
  let authToken := resolveAuthToken req.clientAuth env.ideToken
  let apiKey := jsOr env.localApiKey req.xGoogApiKey
  if !jsTruthy authToken && !jsTruthy apiKey then
    { reply := .jsonError 401 "No authorization header and no API Key found", calls := [] }
  else if !jsTruthy req.model then
    { reply := .jsonError 400 "Model is required", calls := [] }
  else
    let model := req.model.getD ""
    let s1 := strategy1 apiKey model req.stream net.apiKeyOutcome
    let s2 :=
      match s1.2 with
      | some x => ([], some x)
      | none => strategy2 authToken req.xProjectId model req.stream net.oauthOutcome
    { reply := respondStep req.stream s2.2, calls := s1.1 ++ s2.1 }

/-- The `/api/models` handler's credential gate (lines 270-283): resolves
the auth token the same way and 401s when no token is available; on
success the value returned here is the `Authorization` header sent on its
upstream calls (both the Cloud Code attempt and the public fallback use
the same `authToken`). -/
def modelsHandler (clientAuth ideToken : Option String) : Except (Nat × String) String :=
  let authToken := resolveAuthToken clientAuth ideToken
  if !jsTruthy authToken then
    .error (401, "No authorization header and no IDE token found")
  else .ok (authToken.getD "")

/-- The strategy tag carried by a JSON reply, when there is one. -/
def replySourceTag : ClientReply → Option String
  | .taggedJson _ src => some src
  | _ => none

/-- Whether a reply relays a terminal upstream response (as opposed to a
locally synthesized error such as the 401/400 validation replies or the
503 exhaustion reply). -/
def isTerminalRelay : ClientReply → Bool
  | .rawRelay _ _ => true
  | .streamRelay _ => true
  | .taggedJson _ _ => true
  | .jsonError _ _ => false

/-! ## Token exchange (`exchangeCode`, antigravity-auth.ts lines 79-111) -/

/-- The token endpoint's response, reduced to the fields `exchangeCode`
inspects: the HTTP success flag, the raw body text (read on failure), and
the parsed JSON fields. -/
structure TokenResponse where
  ok : Bool
  bodyText : String
  access_token : Option String
  refresh_token : Option String
  expires_in : Option Nat
deriving DecidableEq, Repr

/-- Result of `exchangeCode`: a thrown error message or the token triple. -/
inductive ExchangeResult where
  | err (msg : String)
  | okTokens (access refresh : String) (expires : Int)
deriving DecidableEq, Repr

/-- JS `String.prototype.trim`: strip whitespace from both ends. -/
def jsTrim (s : String) : String :=
  String.mk (((s.data.dropWhile Char.isWhitespace).reverse.dropWhile
    Char.isWhitespace).reverse)

/-- `exchangeCode` (lines 79-111): a non-success HTTP status throws with
the raw response body; otherwise `access_token` and `refresh_token` are
trimmed and each must be truthy or the call throws; `expires` is
`Date.now() + expires_in*1000 - 5*60*1000` with `expires_in ?? 0`. -/
def exchangeCode (now : Nat) (resp : TokenResponse) : ExchangeResult :=
  if !resp.ok then .err ("Token exchange failed: " ++ resp.bodyText)
  else
    let access := resp.access_token.map jsTrim
    let refresh := resp.refresh_token.map jsTrim
    let expiresIn := resp.expires_in.getD 0
    if !jsTruthy access then .err "Token exchange returned no access_token"
    else if !jsTruthy refresh then .err "Token exchange returned no refresh_token"
    else .okTokens (access.getD "") (refresh.getD "")
      ((now : Int) + (expiresIn : Int) * 1000 - 5 * 60 * 1000)

/-! ## Auth status long-poll (`GET /api/auth/status/:requestId`, index lines 818-844) -/

/-- A plain HTTP reply: status, optional content type, body payload. -/
structure HttpReply where
  status : Nat
  contentType : Option String
  body : String
deriving DecidableEq, Repr

/-- How the race between the pending auth promise and the poll timer can
come out: the promise resolves in time, rejects in time, or the window
elapses first. -/
inductive RaceResult where
  | resolvedR (body : String)
  | rejectedR (msg : String)
  | timedOutR
deriving DecidableEq, Repr

/-- The long-poll window of the status endpoint (line 831), in ms. -/
def POLL_WINDOW_MS : Nat := 25000

/-- The post-settlement retention delay before the login handler deletes
the pending request entry (line 808), in ms. -/
def RETENTION_MS : Nat := 60000

/-- `Promise.race([authPromise, timeoutPromise])` (lines 829-832): the
window elapsing injects a rejection with the sentinel message `TIMEOUT`. -/
def raceOutcome : RaceResult → Except String String
  | .resolvedR b => .ok b
  | .rejectedR m => .error m
  | .timedOutR => .error "TIMEOUT"

/-- The `/api/auth/status/:requestId` handler (lines 818-844): 404 when the
id is not in `pendingAuthRequests` (`none` here); otherwise race the
promise against the window and branch on the caught message. -/
def authStatusHandler (entry : Option RaceResult) : HttpReply :=
  match entry with
  | none => { status := 404, contentType := none, body := "Request not found or expired" }
  | some race =>
      match raceOutcome race with
      | .ok b => { status := 200, contentType := none, body := b }
      | .error m =>
          if m = "TIMEOUT" then { status := 202, contentType := none, body := "pending" }
          else { status := 500, contentType := none, body := m }

/-- The login handler (lines 798-816) schedules deletion of a pending
request entry `RETENTION_MS` after its promise settles. -/
def scheduledDeletionTime (settledAt : Nat) : Nat := settledAt + RETENTION_MS

/-! ## Loopback callback server and pending-auth table
(antigravity-auth.ts lines 28-57 and 170-255) -/

/-- The static confirmation page served on every `/oauth-callback` hit
(antigravity-auth.ts lines 28-46; braces written as escapes). -/
def RESPONSE_PAGE : String := "<!DOCTYPE html>
<html lang=\"en\">
  <head>
    <meta charset=\"utf-8\" />
    <title>OpenClaw Antigravity OAuth</title>
    <style>
      body \x7b font-family: system-ui, sans-serif; background: #1a1a1a; color: #fff; display: flex; align-items: center; justify-content: center; height: 100vh; margin: 0; \x7d
      .card \x7b background: #2a2a2a; padding: 2rem; border-radius: 12px; text-align: center; box-shadow: 0 4px 6px rgba(0,0,0,0.3); \x7d
      h1 \x7b margin-top: 0; color: #4ade80; \x7d
    </style>
  </head>
  <body>
    <div class=\"card\">
      <h1>Authentication complete</h1>
      <p>You can close this tab and return to the application.</p>
    </div>
    <script>setTimeout(() => window.close(), 2000);</script>
  </body>
</html>"

/-- One started authorization flow, instrumented for verification: `key`
is its `state` token, `inMap` whether `pendingAuths` still holds it,
`timerArmed` whether its 5-minute timer is still pending, and `attempts`
how many times `resolve`/`reject` has been invoked on its promise. -/
structure AuthEntry where
  key : String
  verifier : String
  inMap : Bool
  timerArmed : Bool
  attempts : Nat
deriving DecidableEq, Repr

/-- The process-wide pending-auth state (`pendingAuths` plus the per-flow
timers and promise handles). -/
structure AuthSys where
  auths : List AuthEntry
deriving DecidableEq, Repr

/-- Query parameters of an inbound request to the loopback server. -/
structure CallbackQuery where
  path : String
  code : Option String
  state : Option String
  error : Option String
deriving DecidableEq, Repr

/-- How a settlement was delivered to a pending promise. -/
inductive SettleKind where
  | rejectedErrorParam (e : String)
  | rejectedNoCode
  | rejectedExchange (msg : String)
  | resolvedTokens
  | rejectedTimeout
deriving DecidableEq, Repr

/-- `pendingAuths.has(state)` (line 196). -/
def hasLiveEntry (sys : AuthSys) (st : String) : Bool :=
  sys.auths.any fun e => e.key == st && e.inMap

/-- `pendingAuths.delete(state); clearTimeout(auth.timer)` followed by the
single settlement of the retrieved promise handle (lines 198-219). -/
def markHandled (sys : AuthSys) (st : String) : AuthSys :=
  { auths := sys.auths.map fun e =>
      if e.key == st && e.inMap then
        { e with inMap := false, timerArmed := false, attempts := e.attempts + 1 }
      else e }

/-- The loopback server's request handler (lines 179-220).  Non-callback
paths get a 404; every `/oauth-callback` hit is answered with the static
page up front; then a falsy or unknown `state` is ignored, and otherwise
the entry is removed, its timer cleared, and its promise settled exactly
once: rejected with the `error` parameter if present, rejected when no
`code` was sent, and otherwise resolved or rejected with the token
exchange's result (the exchange outcome is the `exch` oracle argument). -/
def handleCallback (q : CallbackQuery) (exch : ExchangeResult) (sys : AuthSys) :
    HttpReply × AuthSys × Option (String × SettleKind) :=
  if q.path ≠ "/oauth-callback" then
    ({ status := 404, contentType := none, body := "" }, sys, none)
  else
    let page : HttpReply :=
      { status := 200, contentType := some "text/html", body := RESPONSE_PAGE }
    if !jsTruthy q.state then (page, sys, none)
    else
      let st := q.state.getD ""
      if !hasLiveEntry sys st then (page, sys, none)
      else
        let sys1 := markHandled sys st
        if jsTruthy q.error then
          (page, sys1, some (st, .rejectedErrorParam (q.error.getD "")))
        else if !jsTruthy q.code then (page, sys1, some (st, .rejectedNoCode))
        else
          match exch with
          | .err m => (page, sys1, some (st, .rejectedExchange m))
          | .okTokens _ _ _ => (page, sys1, some (st, .resolvedTokens))

/-- The 5-minute timer callback of `startAuth` (lines 240-246): the timer
fires only while armed, disarms itself, and rejects with `Auth timed out`
only if `pendingAuths` still holds the state, deleting the entry. -/
def fireTimeout (st : String) (sys : AuthSys) :
    AuthSys × Option (String × SettleKind) :=
  let hit := sys.auths.any fun e => e.key == st && e.timerArmed && e.inMap
  ({ auths := sys.auths.map fun e =>
      if e.key == st && e.timerArmed then
        if e.inMap then
          { e with inMap := false, timerArmed := false, attempts := e.attempts + 1 }
        else { e with timerArmed := false }
      else e },
   if hit then some (st, .rejectedTimeout) else none)

/-- `startAuth` (lines 232-255): registers a fresh pending entry with an
armed timer.  The guard on an already-used `state` key models the
cryptographic freshness of the 16 random bytes backing `state`. -/
def startAuthStep (st verifier : String) (sys : AuthSys) : AuthSys :=
  if sys.auths.any fun e => e.key == st then sys
  else
    { auths := sys.auths ++
        [{ key := st, verifier := verifier, inMap := true, timerArmed := true,
           attempts := 0 }] }

/-- Events the pending-auth state reacts to. -/
inductive AuthEv where
  | start (st verifier : String)
  | callback (q : CallbackQuery) (exch : ExchangeResult)
  | timeout (st : String)
deriving DecidableEq, Repr

def authStep (sys : AuthSys) : AuthEv → AuthSys
  | .start st v => startAuthStep st v sys
  | .callback q exch => (handleCallback q exch sys).2.1
  | .timeout st => (fireTimeout st sys).1

/-- Run the system from the empty table. -/
def runAuth (evs : List AuthEv) : AuthSys :=
  evs.foldl authStep { auths := [] }

/-- Per-flow lifecycle invariant: a live entry still has its timer armed
and an unsettled promise, and no promise is ever settled twice. -/
def entryInv (e : AuthEntry) : Prop :=
  (e.inMap = true → e.timerArmed = true) ∧ (e.inMap = true ↔ e.attempts = 0) ∧
    e.attempts ≤ 1

/-! ## Project discovery (`fetchProjectId`, antigravity-auth.ts lines 126-168) -/

def DEFAULT_PROJECT_ID : String := "rising-fact-p41fc"

/-- Discovery endpoints in priority order: prod first, then daily
(antigravity-auth.ts lines 23-26). -/
def CODE_ASSIST_ENDPOINTS : List String :=
  ["https://cloudcode-pa.googleapis.com", "https://daily-cloudcode-pa.googleapis.com"]

/-- The `cloudaicompanionProject` field of a discovery response body: a
bare string, an object carrying an optional `id`, or anything else. -/
inductive ProjField where
  | missing
  | bare (s : String)
  | obj (id : Option String)
deriving DecidableEq, Repr

/-- Outcome of the discovery POST against one endpoint. -/
inductive DiscoveryOutcome where
  | netError
  | httpResp (ok : Bool) (field : ProjField)
deriving DecidableEq, Repr

/-- Per-endpoint step of `fetchProjectId` (lines 139-165): exceptions and
non-success statuses are skipped; on success a bare string field is
returned as-is, and an object field's `id` is returned when truthy. -/
def extractProjectId : DiscoveryOutcome → Option String
  | .netError => none
  | .httpResp ok f =>
      if !ok then none
      else
        match f with
        | .bare s => some s
        | .obj (some id) => if id ≠ "" then some id else none
        | _ => none

/-- The endpoint loop of `fetchProjectId`: first recognizable identifier
wins, exhaustion falls back to the hardcoded default (line 167). -/
def fetchProjectIdFrom (net : String → DiscoveryOutcome) : List String → String
  | [] => DEFAULT_PROJECT_ID
  | e :: rest =>
      match extractProjectId (net e) with
      | some id => id
      | none => fetchProjectIdFrom net rest

/-- `fetchProjectId` (lines 126-168) over the fixed endpoint list. -/
def fetchProjectId (net : String → DiscoveryOutcome) : String :=
  fetchProjectIdFrom net CODE_ASSIST_ENDPOINTS

/-! ## PKCE engine (`generatePkce` / `buildAuthUrl`, antigravity-auth.ts
lines 7-26 and 59-77).  `createHash("sha256")` and the `hex`/`base64url`
digests of Node's crypto and Buffer modules are modelled concretely. -/

def CLIENT_ID : String :=
  "1071006060591-tmhssin2h21lcre235vtolojh4g403ep.apps.googleusercontent.com"

def REDIRECT_URI : String := "http://localhost:51121/oauth-callback"

def AUTH_URL : String := "https://accounts.google.com/o/oauth2/v2/auth"

def SCOPES : List String :=
  ["https://www.googleapis.com/auth/cloud-platform",
   "https://www.googleapis.com/auth/userinfo.email",
   "https://www.googleapis.com/auth/userinfo.profile",
   "https://www.googleapis.com/auth/cclog",
   "https://www.googleapis.com/auth/experimentsandconfigs"]

/-- Truncation to a 32-bit word. -/
def w32 (x : Nat) : Nat := x % 4294967296

/-- 32-bit right rotation (for inputs below `2^32`). -/
def rotr32 (n x : Nat) : Nat := w32 ((x >>> n) ||| (x <<< (32 - n)))

def sha256K : List Nat :=
  [1116352408, 1899447441, 3049323471, 3921009573, 961987163,
   1508970993, 2453635748, 2870763221, 3624381080, 310598401,
   607225278, 1426881987, 1925078388, 2162078206, 2614888103,
   3248222580, 3835390401, 4022224774, 264347078, 604807628,
   770255983, 1249150122, 1555081692, 1996064986, 2554220882,
   2821834349, 2952996808, 3210313671, 3336571891, 3584528711,
   113926993, 338241895, 666307205, 773529912, 1294757372,
   1396182291, 1695183700, 1986661051, 2177026350, 2456956037,
   2730485921, 2820302411, 3259730800, 3345764771, 3516065817,
   3600352804, 4094571909, 275423344, 430227734, 506948616,
   659060556, 883997877, 958139571, 1322822218, 1537002063,
   1747873779, 1955562222, 2024104815, 2227730452, 2361852424,
   2428436474, 2756734187, 3204031479, 3329325298]

/-- Big-endian 8-byte encoding of the bit length. -/
def lenBytes64 (bitLen : Nat) : List Nat :=
  (List.range 8).map fun i => (bitLen >>> (8 * (7 - i))) % 256

/-- SHA-256 message padding: `0x80`, zeros to 56 mod 64, 8 length bytes. -/
def padMessage (msg : List Nat) : List Nat :=
  msg ++ 0x80 :: (List.replicate ((119 - msg.length % 64) % 64) 0 ++
    lenBytes64 (msg.length * 8))

/-- Split into 64-byte blocks (structural recursion on a fuel bound so the
definition evaluates by kernel reduction). -/
def chunksAux : Nat → List Nat → List (List Nat)
  | 0, _ => []
  | _, [] => []
  | fuel + 1, b :: rest => ((b :: rest).take 64) :: chunksAux fuel ((b :: rest).drop 64)

def chunks64 (l : List Nat) : List (List Nat) := chunksAux l.length l

/-- Big-endian bytes-to-words. -/
def bytesToWords : List Nat → List Nat
  | b0 :: b1 :: b2 :: b3 :: rest =>
      ((((b0 <<< 8) ||| b1) <<< 8 ||| b2) <<< 8 ||| b3) :: bytesToWords rest
  | _ => []

def ssig0 (x : Nat) : Nat := rotr32 7 x ^^^ rotr32 18 x ^^^ (x >>> 3)

def ssig1 (x : Nat) : Nat := rotr32 17 x ^^^ rotr32 19 x ^^^ (x >>> 10)

def bsig0 (x : Nat) : Nat := rotr32 2 x ^^^ rotr32 13 x ^^^ rotr32 22 x

def bsig1 (x : Nat) : Nat := rotr32 6 x ^^^ rotr32 11 x ^^^ rotr32 25 x

/-- Extend 16 words to the 64-word message schedule. -/
def schedule (w16 : List Nat) : Array Nat :=
  (List.range 48).foldl
    (fun w _ =>
      let t := w.size
      w.push (w32 (ssig1 (w.getD (t - 2) 0) + w.getD (t - 7) 0 +
        ssig0 (w.getD (t - 15) 0) + w.getD (t - 16) 0)))
    w16.toArray

structure Hash8 where
  a : Nat
  b : Nat
  c : Nat
  d : Nat
  e : Nat
  f : Nat
  g : Nat
  h : Nat
deriving DecidableEq, Repr

def sha256Round (st : Hash8) (k wt : Nat) : Hash8 :=
  let ch := (st.e &&& st.f) ^^^ ((4294967295 ^^^ st.e) &&& st.g)
  let temp1 := w32 (st.h + bsig1 st.e + ch + k + wt)
  let maj := (st.a &&& st.b) ^^^ (st.a &&& st.c) ^^^ (st.b &&& st.c)
  let temp2 := w32 (bsig0 st.a + maj)
  { a := w32 (temp1 + temp2), b := st.a, c := st.b, d := st.c,
    e := w32 (st.d + temp1), f := st.e, g := st.f, h := st.g }

def compressBlock (h0 : Hash8) (block : List Nat) : Hash8 :=
  let w := schedule (bytesToWords block)
  let fin := (List.range 64).foldl
    (fun st t => sha256Round st (sha256K.getD t 0) (w.getD t 0)) h0
  { a := w32 (h0.a + fin.a), b := w32 (h0.b + fin.b), c := w32 (h0.c + fin.c),
    d := w32 (h0.d + fin.d), e := w32 (h0.e + fin.e), f := w32 (h0.f + fin.f),
    g := w32 (h0.g + fin.g), h := w32 (h0.h + fin.h) }

def sha256Init : Hash8 :=
  ⟨1779033703, 3144134277, 1013904242, 2773480762,
   1359893119, 2600822924, 528734635, 1541459225⟩

/-- Big-endian 4-byte encoding of a word. -/
def word4 (x : Nat) : List Nat :=
  [(x >>> 24) % 256, (x >>> 16) % 256, (x >>> 8) % 256, x % 256]

/-- SHA-256 of a byte list (FIPS 180-4). -/
def sha256 (msg : List Nat) : List Nat :=
  let hh := (chunks64 (padMessage msg)).foldl compressBlock sha256Init
  word4 hh.a ++ word4 hh.b ++ word4 hh.c ++ word4 hh.d ++
    word4 hh.e ++ word4 hh.f ++ word4 hh.g ++ word4 hh.h

def hexDigits : List Char := "0123456789abcdef".toList

/-- Buffer `toString("hex")` on a byte list. -/
def hexEncodeBytes : List Nat → List Char
  | [] => []
  | b :: rest =>
      hexDigits.getD (b / 16) '0' :: hexDigits.getD (b % 16) '0' ::
        hexEncodeBytes rest

def hexEncode (l : List Nat) : String := String.mk (hexEncodeBytes l)

/-- Value of a lowercase hex digit character. -/
def hexVal (c : Char) : Nat :=
  if c.toNat ≥ 97 then c.toNat - 87 else c.toNat - 48

/-- Decode of one encoded byte. -/
def hexPairVal (c1 c2 : Char) : Nat := hexVal c1 * 16 + hexVal c2

def b64Alphabet : List Char :=
  "ABCDEFGHIJKLMNOPQRSTUVWXYZabcdefghijklmnopqrstuvwxyz0123456789-_".toList

def b64Char (n : Nat) : Char := b64Alphabet.getD n 'A'

/-- Buffer `toString("base64url")`: URL-safe alphabet, no padding. -/
def base64urlChunks : List Nat → List Char
  | b0 :: b1 :: b2 :: rest =>
      b64Char (b0 >>> 2) :: b64Char (((b0 &&& 3) <<< 4) ||| (b1 >>> 4)) ::
        b64Char (((b1 &&& 15) <<< 2) ||| (b2 >>> 6)) :: b64Char (b2 &&& 63) ::
        base64urlChunks rest
  | [b0, b1] =>
      [b64Char (b0 >>> 2), b64Char (((b0 &&& 3) <<< 4) ||| (b1 >>> 4)),
       b64Char ((b1 &&& 15) <<< 2)]
  | [b0] => [b64Char (b0 >>> 2), b64Char ((b0 &&& 3) <<< 4)]
  | [] => []

def base64urlNoPad (bytes : List Nat) : String := String.mk (base64urlChunks bytes)

/-- UTF-8 bytes of an ASCII string (`hash.update(verifier)`). -/
def asciiBytes (s : String) : List Nat := s.data.map Char.toNat

/-- `generatePkce` (lines 59-63) as a function of the 32 random bytes:
the verifier is their hex encoding, the challenge the base64url digest of
the verifier's SHA-256. -/
def generatePkce (randomBytes32 : List Nat) : String × String :=
  let verifier := hexEncode randomBytes32
  let challenge := base64urlNoPad (sha256 (asciiBytes verifier))
  (verifier, challenge)

/-- A URL as its base and ordered query parameters (`URL` plus
`searchParams.set`; all keys set here are distinct, and the values of
`challenge`/`state` are URL-safe, so the query is faithfully a list). -/
structure UrlModel where
  base : String
  params : List (String × String)
deriving DecidableEq, Repr

/-- `buildAuthUrl` (lines 65-77). -/
def buildAuthUrl (challenge st : String) : UrlModel :=
  { base := AUTH_URL,
    params := [("client_id", CLIENT_ID), ("response_type", "code"),
      ("redirect_uri", REDIRECT_URI), ("scope", String.intercalate " " SCOPES),
      ("code_challenge", challenge), ("code_challenge_method", "S256"),
      ("state", st), ("access_type", "offline"), ("prompt", "consent")] }

/-! ## Theorems -/

theorem jsTruthy_none : jsTruthy none = false := rfl

theorem jsTruthy_bearer (t : String) : jsTruthy (some ("Bearer " ++ t)) = true := by
  simp only [jsTruthy, decide_eq_true_eq]
  intro h
  have hlen := congrArg String.length h
  simp [String.length_append] at hlen
  exact absurd hlen.1 (by decide)

/-- Unfolding of `generate` past its credential and model guards: the
result is the 401 reply, the 400 reply, or the relay of the strategy
pipeline, with strategy 2 attempted exactly when strategy 1 produced no
terminal response. -/
theorem generate_eq_cases (env : GenEnv) (req : GenRequest) (net : UpstreamOracle) :
    generate env req net =
      { reply := .jsonError 401 "No authorization header and no API Key found",
        calls := [] } ∨
    generate env req net =
      { reply := .jsonError 400 "Model is required", calls := [] } ∨
    ((∃ x, (strategy1 (jsOr env.localApiKey req.xGoogApiKey) (req.model.getD "")
        req.stream net.apiKeyOutcome).2 = some x ∧
      generate env req net =
        { reply := respondStep req.stream (some x),
          calls := (strategy1 (jsOr env.localApiKey req.xGoogApiKey)
            (req.model.getD "") req.stream net.apiKeyOutcome).1 }) ∨
     ((strategy1 (jsOr env.localApiKey req.xGoogApiKey) (req.model.getD "")
        req.stream net.apiKeyOutcome).2 = none ∧
      generate env req net =
        { reply := respondStep req.stream
            (strategy2 (resolveAuthToken req.clientAuth env.ideToken) req.xProjectId
              (req.model.getD "") req.stream net.oauthOutcome).2,
          calls := (strategy1 (jsOr env.localApiKey req.xGoogApiKey)
              (req.model.getD "") req.stream net.apiKeyOutcome).1 ++
            (strategy2 (resolveAuthToken req.clientAuth env.ideToken) req.xProjectId
              (req.model.getD "") req.stream net.oauthOutcome).1 })) := by
  simp only [generate]
  split
  · exact Or.inl rfl
  · split
    · exact Or.inr (Or.inl rfl)
    · right; right
      rcases hx : (strategy1 (jsOr env.localApiKey req.xGoogApiKey) (req.model.getD "")
          req.stream net.apiKeyOutcome).2 with _ | x
      · right
        refine ⟨rfl, ?_⟩
        simp only [hx]
      · left
        refine ⟨x, rfl, ?_⟩
        simp only [hx, List.append_nil]

/-- If the relay step produced a tagged JSON reply, the terminal response
was a non-streamed 2xx. -/
theorem respondStep_taggedJson (stream : Bool) (f : Option (Nat × String × String))
    (b src : String) (h : respondStep stream f = .taggedJson b src) :
    ∃ s, f = some (s, b, src) ∧ statusOk s = true ∧ stream = false := by
  rcases f with _ | ⟨s, b', src'⟩
  · simp [respondStep] at h
  · refine ⟨s, ?_⟩
    unfold respondStep at h
    by_cases hok : statusOk s = true
    · cases stream
      · simp only [hok, Bool.not_true, Bool.false_eq_true, if_false, if_neg] at h
        rw [ClientReply.taggedJson.injEq] at h
        exact ⟨by rw [h.1, h.2], hok, rfl⟩
      · simp [hok] at h
    · simp only [Bool.not_eq_true] at hok
      simp [hok] at h

/-- A terminal response out of strategy 1 is exactly an API-key upstream
response with a 2xx or 400 status, tagged `gemini-api-key-direct`. -/
theorem strategy1_some (k : Option String) (m : String) (st : Bool) (o : FetchOutcome)
    (s : Nat) (b src : String) (h : (strategy1 k m st o).2 = some (s, b, src)) :
    src = "gemini-api-key-direct" ∧ o = .resp s b ∧ (statusOk s || s == 400) = true := by
  unfold strategy1 at h
  split at h
  · rcases o with _ | ⟨s', b'⟩
    · simp [apiKeyTerminal] at h
    · simp only [apiKeyTerminal] at h
      split at h
      · simp only [Option.map] at h
        rw [Option.some.injEq] at h
        rw [Prod.mk.injEq] at h
        rcases h with ⟨h1, h2⟩
        rw [Prod.mk.injEq] at h2
        rcases h2 with ⟨h2, h3⟩
        subst h1; subst h2
        rename_i hcond
        exact ⟨h3.symm, rfl, hcond⟩
      · simp at h
  · simp at h

/-- A terminal response out of strategy 2 is exactly an OAuth upstream
response, tagged `cloud-ai-companion-cracked` when 2xx and
`cloud-ai-companion-failed` otherwise. -/
theorem strategy2_some (a p : Option String) (m : String) (st : Bool) (o : FetchOutcome)
    (s : Nat) (b src : String) (h : (strategy2 a p m st o).2 = some (s, b, src)) :
    o = .resp s b ∧
      ((statusOk s = true ∧ src = "cloud-ai-companion-cracked") ∨
       (statusOk s = false ∧ src = "cloud-ai-companion-failed")) := by
  unfold strategy2 at h
  split at h
  · rcases o with _ | ⟨s', b'⟩
    · simp [oauthTerminal] at h
    · simp only [oauthTerminal] at h
      by_cases hok : statusOk s' = true
      · rw [if_pos hok, Option.some.injEq, Prod.mk.injEq] at h
        rcases h with ⟨h1, h2⟩
        rw [Prod.mk.injEq] at h2
        subst h1
        rw [h2.1]
        exact ⟨rfl, Or.inl ⟨hok, h2.2.symm⟩⟩
      · simp only [Bool.not_eq_true] at hok
        rw [if_neg (by simp [hok]), Option.some.injEq, Prod.mk.injEq] at h
        rcases h with ⟨h1, h2⟩
        rw [Prod.mk.injEq] at h2
        subst h1
        rw [h2.1]
        exact ⟨rfl, Or.inr ⟨hok, h2.2.symm⟩⟩
  · simp at h

/-- Every call issued by strategy 1 targets the public endpoint. -/
theorem strategy1_calls (k : Option String) (m : String) (st : Bool)
    (o : FetchOutcome) (c : OutboundCall) (hc : c ∈ (strategy1 k m st o).1) :
    c.target = "public" := by
  unfold strategy1 at hc
  split at hc
  · simp only [List.mem_singleton] at hc
    subst hc; rfl
  · simp at hc

/-- Every call issued by strategy 2 targets the internal endpoint and
carries the resolved bearer token as its `Authorization` header. -/
theorem strategy2_calls (a p : Option String) (m : String) (st : Bool)
    (o : FetchOutcome) (c : OutboundCall) (hc : c ∈ (strategy2 a p m st o).1) :
    c.target = "internal" ∧ c.authorization = a := by
  unfold strategy2 at hc
  split at hc
  · simp only [List.mem_singleton] at hc
    subst hc; exact ⟨rfl, rfl⟩
  · simp at hc

/-- C1: for a `/api/generate` request with an API key present and a model
supplied, a 2xx or an exact 400 from the API-key strategy is terminal: it
is relayed to the caller and the OAuth strategy is never attempted (the
single outbound call targets the public endpoint); any other upstream
outcome (another non-2xx status, or a network error) leaves no terminal
response, and when a bearer token is available the router makes exactly
one fallback attempt to the OAuth strategy. -/
theorem apiKey_terminality_single_fallback (env : GenEnv) (req : GenRequest)
    (net : UpstreamOracle)
    (hkey : jsTruthy (jsOr env.localApiKey req.xGoogApiKey) = true)
    (hmodel : jsTruthy req.model = true) :
    (∀ s b, net.apiKeyOutcome = .resp s b → (statusOk s = true ∨ s = 400) →
      (generate env req net).calls.map OutboundCall.target = ["public"] ∧
      (generate env req net).reply =
        (if statusOk s then
           (if req.stream then ClientReply.streamRelay "text/event-stream"
            else ClientReply.taggedJson b "gemini-api-key-direct")
         else ClientReply.rawRelay s b)) ∧
    (apiKeyTerminal net.apiKeyOutcome = none →
     jsTruthy (resolveAuthToken req.clientAuth env.ideToken) = true →
      (generate env req net).calls.map OutboundCall.target = ["public", "internal"]) := by
  constructor
  · intro s b hresp hterm
    have hA : apiKeyTerminal net.apiKeyOutcome = some (s, b) := by
      rw [hresp]
      rcases hterm with h | h
      · simp [apiKeyTerminal, h]
      · subst h; simp [apiKeyTerminal]
    rcases hterm with h | h
    · simp [generate, hkey, hmodel, strategy1, strategy2, respondStep, hA, h]
    · subst h
      have h400 : statusOk 400 = false := by decide
      simp [generate, hkey, hmodel, strategy1, strategy2, respondStep, hA, h400]
  · intro hnone hbearer
    simp [generate, hkey, hmodel, hbearer, strategy1, strategy2, respondStep, hnone]

/-- C1 witness: a concrete 500 from the API-key strategy with a bearer
token available yields the public call followed by exactly one internal
fallback call. -/
theorem apiKey_terminality_single_fallback_witness :
    (generate { ideToken := some "ya29.tok", localApiKey := some "KEY123" }
      { clientAuth := none, xProjectId := none, xGoogApiKey := none,
        model := some "gemini-3-pro-preview", stream := false }
      { apiKeyOutcome := .resp 500 "boom", oauthOutcome := .resp 200 "ok" }).calls.map
        OutboundCall.target = ["public", "internal"] :=
  (apiKey_terminality_single_fallback
    { ideToken := some "ya29.tok", localApiKey := some "KEY123" }
    { clientAuth := none, xProjectId := none, xGoogApiKey := none,
      model := some "gemini-3-pro-preview", stream := false }
    { apiKeyOutcome := .resp 500 "boom", oauthOutcome := .resp 200 "ok" }
    (by decide) (by decide)).2 (by decide) (by decide)

/-- C2: with neither an API key nor a resolvable bearer token the router
replies 401 immediately and issues zero outbound calls; with at least one
credential present (and a model supplied), if every attempted strategy
ends without a terminal upstream response the router replies 503. -/
theorem no_credentials_401_exhaustion_503 (env : GenEnv) (req : GenRequest)
    (net : UpstreamOracle) :
    (jsTruthy (resolveAuthToken req.clientAuth env.ideToken) = false →
     jsTruthy (jsOr env.localApiKey req.xGoogApiKey) = false →
      generate env req net =
        { reply := .jsonError 401 "No authorization header and no API Key found",
          calls := [] }) ∧
    ((jsTruthy (resolveAuthToken req.clientAuth env.ideToken) = true ∨
      jsTruthy (jsOr env.localApiKey req.xGoogApiKey) = true) →
     jsTruthy req.model = true →
     (jsTruthy (jsOr env.localApiKey req.xGoogApiKey) = true →
        apiKeyTerminal net.apiKeyOutcome = none) →
     (jsTruthy (resolveAuthToken req.clientAuth env.ideToken) = true →
        net.oauthOutcome = .netError) →
      (generate env req net).reply =
        .jsonError 503 "All attempts failed. Check quota (Antigravity) or API Key.") := by
  constructor
  · intro hauth hkey
    simp [generate, hauth, hkey]
  · intro hcred hmodel hkeyNone hoauthNet
    rcases hcred with hauth | hkey
    · by_cases hkey : jsTruthy (jsOr env.localApiKey req.xGoogApiKey) = true
      · simp [generate, hauth, hkey, hmodel, strategy1, strategy2, respondStep,
          hkeyNone hkey, oauthTerminal, hoauthNet hauth]
      · simp only [Bool.not_eq_true] at hkey
        simp [generate, hauth, hkey, hmodel, strategy1, strategy2, respondStep,
          oauthTerminal, hoauthNet hauth]
    · by_cases hauth : jsTruthy (resolveAuthToken req.clientAuth env.ideToken) = true
      · simp [generate, hauth, hkey, hmodel, strategy1, strategy2, respondStep,
          hkeyNone hkey, oauthTerminal, hoauthNet hauth]
      · simp only [Bool.not_eq_true] at hauth
        simp [generate, hauth, hkey, hmodel, strategy1, strategy2, respondStep,
          hkeyNone hkey]

/-- C2 witness: no credentials at all yields the 401 with no outbound
calls, and a key-only environment whose single strategy hits a network
error yields the 503. -/
theorem no_credentials_401_exhaustion_503_witness :
    generate { ideToken := none, localApiKey := none }
      { clientAuth := none, xProjectId := none, xGoogApiKey := none,
        model := some "gemini-2.0-flash", stream := false }
      { apiKeyOutcome := .netError, oauthOutcome := .netError } =
      { reply := .jsonError 401 "No authorization header and no API Key found",
        calls := [] } ∧
    (generate { ideToken := none, localApiKey := some "K" }
      { clientAuth := none, xProjectId := none, xGoogApiKey := none,
        model := some "gemini-2.0-flash", stream := false }
      { apiKeyOutcome := .netError, oauthOutcome := .netError }).reply =
      .jsonError 503 "All attempts failed. Check quota (Antigravity) or API Key." :=
  ⟨(no_credentials_401_exhaustion_503 _ _ _).1 (by decide) (by decide),
   (no_credentials_401_exhaustion_503
      { ideToken := none, localApiKey := some "K" }
      { clientAuth := none, xProjectId := none, xGoogApiKey := none,
        model := some "gemini-2.0-flash", stream := false }
      { apiKeyOutcome := .netError, oauthOutcome := .netError }).2
    (Or.inr (by decide)) (by decide) (fun _ => by decide) (fun _ => rfl)⟩

/-- C3 counterexample: a 400 from the API-key strategy is a terminal
response relayed to the caller, yet it carries no `source` tag, so the
claim that every terminal response is tagged with its producing strategy
fails on this input. -/
theorem terminal_tagging_counterexample :
    isTerminalRelay (generate { ideToken := none, localApiKey := some "KEY123" }
      { clientAuth := none, xProjectId := none, xGoogApiKey := none,
        model := some "gemini-3-flash-preview", stream := false }
      { apiKeyOutcome := .resp 400 "bad request", oauthOutcome := .netError }).reply
      = true ∧
    replySourceTag (generate { ideToken := none, localApiKey := some "KEY123" }
      { clientAuth := none, xProjectId := none, xGoogApiKey := none,
        model := some "gemini-3-flash-preview", stream := false }
      { apiKeyOutcome := .resp 400 "bad request", oauthOutcome := .netError }).reply
      = none := by decide

/-- C3 amended: only non-streaming 2xx terminal responses are tagged, and
the tag then correctly identifies the strategy whose upstream 2xx body is
relayed (`gemini-api-key-direct` for the API-key strategy,
`cloud-ai-companion-cracked` for the OAuth strategy); error and streaming
relays carry no tag.  In particular the end-to-end example holds: a
non-streaming `gemini-3-flash-preview` request with only an API key makes
exactly one outbound call, to the public endpoint with the model remapped
to `gemini-2.5-flash`, and yields a 200 JSON reply tagged
`gemini-api-key-direct`. -/
theorem terminal_tagging_amended (env : GenEnv) (req : GenRequest)
    (net : UpstreamOracle) :
    (∀ b src, (generate env req net).reply = .taggedJson b src →
      (src = "gemini-api-key-direct" ∧
        (∃ s, net.apiKeyOutcome = .resp s b ∧ statusOk s = true)) ∨
      (src = "cloud-ai-companion-cracked" ∧
        (∃ s, net.oauthOutcome = .resp s b ∧ statusOk s = true))) ∧
    generate { ideToken := none, localApiKey := some "KEY123" }
      { clientAuth := none, xProjectId := none, xGoogApiKey := none,
        model := some "gemini-3-flash-preview", stream := false }
      { apiKeyOutcome := .resp 200 "UNARY_BODY", oauthOutcome := .netError } =
      { reply := .taggedJson "UNARY_BODY" "gemini-api-key-direct",
        calls := [{ target := "public",
                    url := "https://generativelanguage.googleapis.com/v1beta/models/gemini-2.5-flash:generateContent?key=KEY123",
                    authorization := none, bodyModel := none }] } := by
  constructor
  · intro b src htag
    rcases generate_eq_cases env req net with h | h | ⟨x, hx, hg⟩ | ⟨hnone, hg⟩
    · rw [h] at htag; simp at htag
    · rw [h] at htag; simp at htag
    · rw [hg] at htag
      simp only at htag
      obtain ⟨s, hsome, hok, _⟩ := respondStep_taggedJson _ _ _ _ htag
      rw [hsome] at hx
      obtain ⟨hsrc, ho, _⟩ := strategy1_some _ _ _ _ _ _ _ hx
      exact Or.inl ⟨hsrc, s, ho, hok⟩
    · rw [hg] at htag
      simp only at htag
      obtain ⟨s, hsome, hok, _⟩ := respondStep_taggedJson _ _ _ _ htag
      obtain ⟨ho, hcase⟩ := strategy2_some _ _ _ _ _ _ _ _ hsome
      rcases hcase with ⟨_, hsrc⟩ | ⟨hbad, _⟩
      · exact Or.inr ⟨hsrc, s, ho, hok⟩
      · rw [hok] at hbad; exact absurd hbad (by simp)
  · decide

/-- C3 amended witness: the concrete end-to-end example, obtained by
applying the amended theorem. -/
theorem terminal_tagging_amended_witness :
    generate { ideToken := none, localApiKey := some "KEY123" }
      { clientAuth := none, xProjectId := none, xGoogApiKey := none,
        model := some "gemini-3-flash-preview", stream := false }
      { apiKeyOutcome := .resp 200 "UNARY_BODY", oauthOutcome := .netError } =
      { reply := .taggedJson "UNARY_BODY" "gemini-api-key-direct",
        calls := [{ target := "public",
                    url := "https://generativelanguage.googleapis.com/v1beta/models/gemini-2.5-flash:generateContent?key=KEY123",
                    authorization := none, bodyModel := none }] } :=
  (terminal_tagging_amended { ideToken := none, localApiKey := some "KEY123" }
    { clientAuth := none, xProjectId := none, xGoogApiKey := none,
      model := some "gemini-3-flash-preview", stream := false }
    { apiKeyOutcome := .resp 200 "UNARY_BODY", oauthOutcome := .netError }).2

/-- C10: whenever the IDE credential-store lookup yields a token, that
token silently takes precedence over any client-supplied `Authorization`
header: every outbound OAuth-strategy call of `/api/generate` carries
`Bearer <ideToken>` whatever the caller sent, and `/api/models` likewise
sends `Bearer <ideToken>` upstream. -/
theorem ideToken_precedence (env : GenEnv) (req : GenRequest)
    (net : UpstreamOracle) (ca : Option String) (t : String)
    (hide : env.ideToken = some t) :
    (∀ c ∈ (generate env req net).calls, c.target = "internal" →
        c.authorization = some ("Bearer " ++ t)) ∧
    modelsHandler ca (some t) = .ok ("Bearer " ++ t) := by
  constructor
  · intro c hc htarget
    rcases generate_eq_cases env req net with h | h | ⟨x, hx, hg⟩ | ⟨hnone, hg⟩
    · rw [h] at hc; simp at hc
    · rw [h] at hc; simp at hc
    · rw [hg] at hc
      simp only at hc
      have := strategy1_calls _ _ _ _ c hc
      rw [htarget] at this
      exact absurd this (by decide)
    · rw [hg] at hc
      simp only [List.mem_append] at hc
      rcases hc with hc | hc
      · have := strategy1_calls _ _ _ _ c hc
        rw [htarget] at this
        exact absurd this (by decide)
      · have := (strategy2_calls _ _ _ _ _ c hc).2
        rw [this, hide]
        rfl
  · simp [modelsHandler, resolveAuthToken, jsTruthy_bearer]

/-- C10 witness: with an IDE token present and the caller sending its own
bearer header, the internal call and the models endpoint both use the IDE
token. -/
theorem ideToken_precedence_witness :
    (OutboundCall.mk "internal" (oauthUrl false) (some ("Bearer " ++ "ya29.ide"))
        (some "gemini-2.0-flash")).authorization = some ("Bearer " ++ "ya29.ide") ∧
    modelsHandler (some "Bearer client-token") (some "ya29.ide") =
      .ok ("Bearer " ++ "ya29.ide") := by
  have h := ideToken_precedence
    (GenEnv.mk (some "ya29.ide") none)
    (GenRequest.mk (some "Bearer client-token") none none
      (some "gemini-2.0-flash") false)
    (UpstreamOracle.mk .netError (.resp 200 "ok"))
    (some "Bearer client-token") "ya29.ide" rfl
  exact ⟨h.1 (OutboundCall.mk "internal" (oauthUrl false)
      (some ("Bearer " ++ "ya29.ide")) (some "gemini-2.0-flash"))
      (by decide) rfl, h.2⟩

/-- C4: `exchangeCode` throws with the raw response body on any non-success
HTTP status; it throws whenever `access_token` or `refresh_token` is
absent; and in particular a successful response carrying an `access_token`
but no `refresh_token` throws the missing-refresh-token error rather than
returning a partial token set. -/
theorem exchangeCode_requires_both_tokens (now : Nat) (resp : TokenResponse) :
    (resp.ok = false →
      exchangeCode now resp = .err ("Token exchange failed: " ++ resp.bodyText)) ∧
    (resp.access_token = none → ∃ m, exchangeCode now resp = .err m) ∧
    (resp.refresh_token = none → ∃ m, exchangeCode now resp = .err m) ∧
    (∀ a, resp.ok = true → resp.access_token = some a →
      jsTruthy (some (jsTrim a)) = true → resp.refresh_token = none →
      exchangeCode now resp = .err "Token exchange returned no refresh_token") := by
  refine ⟨?_, ?_, ?_, ?_⟩
  · intro hok
    simp [exchangeCode, hok]
  · intro hacc
    by_cases hok : resp.ok = true
    · exact ⟨"Token exchange returned no access_token",
        by simp [exchangeCode, hok, hacc, jsTruthy]⟩
    · simp only [Bool.not_eq_true] at hok
      exact ⟨"Token exchange failed: " ++ resp.bodyText, by simp [exchangeCode, hok]⟩
  · intro href
    by_cases hok : resp.ok = true
    · by_cases hacc : jsTruthy (resp.access_token.map jsTrim) = true
      · exact ⟨"Token exchange returned no refresh_token",
          by simp [exchangeCode, hok, href, hacc, jsTruthy_none]⟩
      · simp only [Bool.not_eq_true] at hacc
        exact ⟨"Token exchange returned no access_token", by simp [exchangeCode, hok, hacc]⟩
    · simp only [Bool.not_eq_true] at hok
      exact ⟨"Token exchange failed: " ++ resp.bodyText, by simp [exchangeCode, hok]⟩
  · intro a hok hacc htruthy href
    simp [exchangeCode, hok, hacc, href, htruthy, jsTruthy_none, Option.map]

/-- C4 witness: a successful response with an access token but no refresh
token raises the missing-refresh-token error. -/
theorem exchangeCode_requires_both_tokens_witness :
    exchangeCode 1700000000000
      { ok := true, bodyText := "", access_token := some "ya29.acc",
        refresh_token := none, expires_in := some 3600 } =
      .err "Token exchange returned no refresh_token" :=
  (exchangeCode_requires_both_tokens 1700000000000
    { ok := true, bodyText := "", access_token := some "ya29.acc",
      refresh_token := none, expires_in := some 3600 }).2.2.2
    "ya29.acc" rfl rfl (by decide) rfl

theorem jsTrim_evaluates : jsTrim "  ya29.acc " = "ya29.acc" := by decide

/-- C7 counterexample: the status endpoint distinguishes window expiry from
promise rejection solely by the caught message being the sentinel
`TIMEOUT`, so a promise that rejects with message exactly `TIMEOUT`
(reachable via the OAuth callback's `error` query parameter, which is
rethrown verbatim) yields `202 pending`, not a 5xx with the error message
as the claim states. -/
theorem poll_reject_sentinel_counterexample :
    authStatusHandler (some (.rejectedR "TIMEOUT")) =
      { status := 202, contentType := none, body := "pending" } ∧
    ((authStatusHandler (some (.rejectedR "TIMEOUT"))).status = 500) = False := by
  constructor
  · rfl
  · simp [authStatusHandler, raceOutcome]

/-- C7 amended: the status endpoint is a bounded long-poll: 404 when the
request id is unknown, 200 with the result when the promise resolves
within the window, 202 pending when the window elapses first, and 500 with
the error message when the promise rejects with any message other than the
internal sentinel `TIMEOUT` (a rejection with exactly that message is
indistinguishable from window expiry and yields 202); a settled entry's
deletion is scheduled `RETENTION_MS = 60000` ms after settlement. -/
theorem poll_bounded_longpoll (e : Option RaceResult) :
    (e = none →
      authStatusHandler e =
        { status := 404, contentType := none, body := "Request not found or expired" }) ∧
    (∀ b, e = some (.resolvedR b) →
      authStatusHandler e = { status := 200, contentType := none, body := b }) ∧
    (e = some .timedOutR →
      authStatusHandler e = { status := 202, contentType := none, body := "pending" }) ∧
    (∀ m, e = some (.rejectedR m) → m ≠ "TIMEOUT" →
      authStatusHandler e = { status := 500, contentType := none, body := m }) ∧
    (∀ t, scheduledDeletionTime t = t + 60000) := by
  refine ⟨?_, ?_, ?_, ?_, ?_⟩
  · intro h; subst h; rfl
  · intro b h; subst h; rfl
  · intro h; subst h; rfl
  · intro m h hm
    subst h
    simp [authStatusHandler, raceOutcome, hm]
  · intro t; rfl

/-- C7 amended witness: concrete instances of all four reply shapes. -/
theorem poll_bounded_longpoll_witness :
    authStatusHandler none =
      { status := 404, contentType := none, body := "Request not found or expired" } ∧
    authStatusHandler (some (.resolvedR "tokenset")) =
      { status := 200, contentType := none, body := "tokenset" } ∧
    authStatusHandler (some .timedOutR) =
      { status := 202, contentType := none, body := "pending" } ∧
    authStatusHandler (some (.rejectedR "Auth timed out")) =
      { status := 500, contentType := none, body := "Auth timed out" } :=
  ⟨(poll_bounded_longpoll none).1 rfl,
   (poll_bounded_longpoll (some (.resolvedR "tokenset"))).2.1 "tokenset" rfl,
   (poll_bounded_longpoll (some .timedOutR)).2.2.1 rfl,
   (poll_bounded_longpoll (some (.rejectedR "Auth timed out"))).2.2.2.1
     "Auth timed out" rfl (by decide)⟩

theorem fetchProjectIdFrom_eq_findSome (net : String → DiscoveryOutcome)
    (l : List String) :
    fetchProjectIdFrom net l =
      (l.findSome? fun e => extractProjectId (net e)).getD DEFAULT_PROJECT_ID := by
  induction l with
  | nil => rfl
  | cons e rest ih =>
      simp only [fetchProjectIdFrom, List.findSome?]
      cases hx : extractProjectId (net e) with
      | none => simp [hx, ih]
      | some id => simp [hx]

theorem fetchProjectIdFrom_hit_or_default (net : String → DiscoveryOutcome)
    (l : List String) :
    fetchProjectIdFrom net l = DEFAULT_PROJECT_ID ∨
      ∃ e ∈ l, extractProjectId (net e) = some (fetchProjectIdFrom net l) := by
  induction l with
  | nil => exact Or.inl rfl
  | cons e rest ih =>
      simp only [fetchProjectIdFrom]
      cases hx : extractProjectId (net e) with
      | none =>
          rcases ih with h | ⟨e', he', hh⟩
          · exact Or.inl h
          · exact Or.inr ⟨e', List.mem_cons_of_mem _ he', hh⟩
      | some id => exact Or.inr ⟨e, List.mem_cons_self _ _, hx⟩

theorem mem_map_inv (f : AuthEntry → AuthEntry)
    (hf : ∀ e, entryInv e → entryInv (f e)) (l : List AuthEntry)
    (h : ∀ e ∈ l, entryInv e) : ∀ e ∈ l.map f, entryInv e := by
  intro e he
  rcases List.mem_map.mp he with ⟨a, ha, rfl⟩
  exact hf a (h a ha)

theorem markHandled_inv (sys : AuthSys) (st : String)
    (h : ∀ e ∈ sys.auths, entryInv e) :
    ∀ e ∈ (markHandled sys st).auths, entryInv e := by
  apply mem_map_inv _ _ _ h
  intro e hinv
  by_cases hc : (e.key == st && e.inMap) = true
  · rw [if_pos hc]
    have hin : e.inMap = true := (Bool.and_eq_true_iff.mp hc).2
    have ha0 : e.attempts = 0 := hinv.2.1.mp hin
    exact ⟨by simp, by simp, by simp [ha0]⟩
  · rw [if_neg hc]
    exact hinv

theorem fireTimeout_inv (st : String) (sys : AuthSys)
    (h : ∀ e ∈ sys.auths, entryInv e) :
    ∀ e ∈ (fireTimeout st sys).1.auths, entryInv e := by
  simp only [fireTimeout]
  apply mem_map_inv _ _ _ h
  intro e hinv
  by_cases hc : (e.key == st && e.timerArmed) = true
  · rw [if_pos hc]
    by_cases hin : e.inMap = true
    · rw [if_pos hin]
      have ha0 : e.attempts = 0 := hinv.2.1.mp hin
      exact ⟨by simp, by simp, by simp [ha0]⟩
    · rw [if_neg hin]
      refine ⟨fun hx => absurd hx hin, hinv.2.1, hinv.2.2⟩
  · rw [if_neg hc]
    exact hinv

theorem startAuthStep_inv (st v : String) (sys : AuthSys)
    (h : ∀ e ∈ sys.auths, entryInv e) :
    ∀ e ∈ (startAuthStep st v sys).auths, entryInv e := by
  unfold startAuthStep
  split
  · exact h
  · intro e he
    rw [List.mem_append] at he
    rcases he with he | he
    · exact h e he
    · rw [List.mem_singleton] at he
      subst he
      exact ⟨fun _ => rfl, by simp, by simp⟩

/-- The callback handler either leaves the table untouched or performs the
single delete-and-settle update for the supplied state. -/
theorem handleCallback_sys (q : CallbackQuery) (exch : ExchangeResult)
    (sys : AuthSys) :
    (handleCallback q exch sys).2.1 = sys ∨
    (handleCallback q exch sys).2.1 = markHandled sys (q.state.getD "") := by
  simp only [handleCallback]
  split
  · exact Or.inl rfl
  · split
    · exact Or.inl rfl
    · split
      · exact Or.inl rfl
      · split
        · exact Or.inr rfl
        · split
          · exact Or.inr rfl
          · cases exch <;> exact Or.inr rfl

theorem authStep_inv (sys : AuthSys) (ev : AuthEv)
    (h : ∀ e ∈ sys.auths, entryInv e) :
    ∀ e ∈ (authStep sys ev).auths, entryInv e := by
  cases ev with
  | start st v => exact startAuthStep_inv st v sys h
  | callback q exch =>
      show ∀ e ∈ (handleCallback q exch sys).2.1.auths, entryInv e
      rcases handleCallback_sys q exch sys with hq | hq <;> rw [hq]
      · exact h
      · exact markHandled_inv sys _ h
  | timeout st => exact fireTimeout_inv st sys h

theorem foldl_authStep_inv (evs : List AuthEv) :
    ∀ sys : AuthSys, (∀ e ∈ sys.auths, entryInv e) →
      ∀ e ∈ (evs.foldl authStep sys).auths, entryInv e := by
  induction evs with
  | nil => intro sys h; simpa using h
  | cons ev rest ih =>
      intro sys h
      simp only [List.foldl_cons]
      exact ih _ (authStep_inv sys ev h)

/-- C5: along any event trace of the pending-auth system, every started
authorization settles its promise at most once (`attempts ≤ 1`), a live
`pendingAuths` entry always still has its timer armed (no entry outlives
its timer), and an entry is live exactly while its promise is unsettled:
removal (with the timer cleared) happens precisely at completion, whether
by callback settlement or by the timeout. -/
theorem single_settlement_lifecycle (evs : List AuthEv) (e : AuthEntry)
    (he : e ∈ (runAuth evs).auths) :
    e.attempts ≤ 1 ∧ (e.inMap = true → e.timerArmed = true) ∧
      (e.inMap = true ↔ e.attempts = 0) := by
  have h := foldl_authStep_inv evs { auths := [] } (by simp) e he
  exact ⟨h.2.2, h.1, h.2.1⟩

/-- C5 witness: a flow that is started, completed by its callback, and then
hit by its (already cleared) timer ends with exactly one settlement and a
removed entry. -/
theorem single_settlement_lifecycle_witness :
    (AuthEntry.mk "s1" "v1" false false 1).attempts ≤ 1 ∧
    ((AuthEntry.mk "s1" "v1" false false 1).inMap = true →
      (AuthEntry.mk "s1" "v1" false false 1).timerArmed = true) ∧
    ((AuthEntry.mk "s1" "v1" false false 1).inMap = true ↔
      (AuthEntry.mk "s1" "v1" false false 1).attempts = 0) :=
  single_settlement_lifecycle
    [.start "s1" "v1",
     .callback { path := "/oauth-callback", code := some "authcode",
                 state := some "s1", error := none } (.okTokens "a" "r" 0),
     .timeout "s1"]
    (AuthEntry.mk "s1" "v1" false false 1) (by decide)

/-- C6: an `/oauth-callback` request whose `state` is absent (or empty) or
matches no live pending authorization is answered 200 text/html with the
static confirmation page and has no other effect: the pending-auth table
is unchanged and no promise is settled. -/
theorem unknown_state_callback_noop (q : CallbackQuery) (exch : ExchangeResult)
    (sys : AuthSys) (hpath : q.path = "/oauth-callback")
    (hstate : jsTruthy q.state = false ∨
      hasLiveEntry sys (q.state.getD "") = false) :
    handleCallback q exch sys =
      ({ status := 200, contentType := some "text/html", body := RESPONSE_PAGE },
        sys, none) := by
  simp only [handleCallback]
  rw [if_neg (by simp [hpath])]
  rcases hstate with h | h
  · rw [if_pos (by simp [h])]
  · by_cases h2 : jsTruthy q.state = true
    · rw [if_neg (by simp [h2]), if_pos (by simp [h])]
    · simp only [Bool.not_eq_true] at h2
      rw [if_pos (by simp [h2])]

/-- C6 witness: a callback carrying an unknown state against a table with
one live entry returns the page and leaves the table as it was. -/
theorem unknown_state_callback_noop_witness :
    handleCallback
      { path := "/oauth-callback", code := some "authcode",
        state := some "forged", error := none }
      (.okTokens "a" "r" 0)
      { auths := [AuthEntry.mk "s1" "v1" true true 0] } =
      ({ status := 200, contentType := some "text/html", body := RESPONSE_PAGE },
        { auths := [AuthEntry.mk "s1" "v1" true true 0] }, none) :=
  unknown_state_callback_noop
    { path := "/oauth-callback", code := some "authcode",
      state := some "forged", error := none }
    (.okTokens "a" "r" 0)
    { auths := [AuthEntry.mk "s1" "v1" true true 0] }
    rfl (Or.inr (by decide))

set_option maxRecDepth 10000 in
/-- SHA-256 embedding sanity: the FIPS 180-4 `abc` test vector. -/
theorem sha256_abc_vector :
    sha256 (asciiBytes "abc") =
      [186, 120, 22, 191, 143, 1, 207, 234, 65, 65, 64, 222, 93, 174, 34, 35,
       176, 3, 97, 163, 150, 23, 122, 156, 180, 16, 255, 97, 242, 0, 21, 173] := by
  decide

theorem b64Char_ne_pad (n : Nat) : b64Char n ≠ '=' := by
  have hsmall : ∀ m < 64, b64Char m ≠ '=' := by decide
  by_cases h : n < 64
  · exact hsmall n h
  · have hnone : b64Alphabet.getD n 'A' = 'A' := by
      apply List.getD_eq_default
      have hlen : b64Alphabet.length = 64 := by decide
      omega
    simp only [b64Char, hnone]
    decide

theorem base64urlChunks_no_pad (l : List Nat) : '=' ∉ base64urlChunks l := by
  induction l using base64urlChunks.induct with
  | case1 b0 b1 b2 rest ih =>
      intro h
      simp only [base64urlChunks, List.mem_cons] at h
      rcases h with h | h | h | h | h
      · exact b64Char_ne_pad _ h.symm
      · exact b64Char_ne_pad _ h.symm
      · exact b64Char_ne_pad _ h.symm
      · exact b64Char_ne_pad _ h.symm
      · exact ih h
  | case2 b0 b1 =>
      intro h
      simp only [base64urlChunks, List.mem_cons] at h
      rcases h with h | h | h | h
      · exact b64Char_ne_pad _ h.symm
      · exact b64Char_ne_pad _ h.symm
      · exact b64Char_ne_pad _ h.symm
      · simp at h
  | case3 b0 =>
      intro h
      simp only [base64urlChunks, List.mem_cons] at h
      rcases h with h | h | h
      · exact b64Char_ne_pad _ h.symm
      · exact b64Char_ne_pad _ h.symm
      · simp at h
  | case4 => simp [base64urlChunks]

set_option maxRecDepth 4000 in
theorem hex_roundtrip :
    ∀ b < 256, hexPairVal (hexDigits.getD (b / 16) '0')
      (hexDigits.getD (b % 16) '0') = b := by decide

theorem hexEncodeBytes_length (l : List Nat) :
    (hexEncodeBytes l).length = 2 * l.length := by
  induction l with
  | nil => rfl
  | cons b t ih => simp [hexEncodeBytes, ih]; omega

theorem hexEncodeBytes_inj : ∀ (l l' : List Nat), (∀ b ∈ l, b < 256) →
    (∀ b ∈ l', b < 256) → hexEncodeBytes l = hexEncodeBytes l' → l = l' := by
  intro l
  induction l with
  | nil =>
      intro l' _ _ h
      cases l' with
      | nil => rfl
      | cons b t => simp [hexEncodeBytes] at h
  | cons b t ih =>
      intro l' hb hb' h
      cases l' with
      | nil => simp [hexEncodeBytes] at h
      | cons b' t' =>
          simp only [hexEncodeBytes, List.cons.injEq] at h
          rcases h with ⟨h1, h2, h3⟩
          have e1 : b = b' := by
            calc b = hexPairVal (hexDigits.getD (b / 16) '0')
                      (hexDigits.getD (b % 16) '0') :=
                    (hex_roundtrip b (hb b (List.mem_cons_self _ _))).symm
              _ = hexPairVal (hexDigits.getD (b' / 16) '0')
                      (hexDigits.getD (b' % 16) '0') := by rw [h1, h2]
              _ = b' := hex_roundtrip b' (hb' b' (List.mem_cons_self _ _))
          subst e1
          rw [ih t' (fun x hx => hb x (List.mem_cons_of_mem _ hx))
            (fun x hx => hb' x (List.mem_cons_of_mem _ hx)) h3]

/-- C8: for every PKCE pair generated from 32 random bytes, the challenge
is the base64url encoding of the SHA-256 digest of the verifier and
contains no `=` padding character; the verifier is 64 hex characters
determined injectively by the 32 random bytes (so it carries their full
256 bits of entropy); and the authorization URL embeds exactly this
challenge as `code_challenge` with method `S256`, alongside the client id,
redirect URI, space-joined scopes, the state, `access_type=offline` and
`prompt=consent`. -/
theorem pkce_challenge_and_authUrl (r r' : List Nat) (st : String)
    (hr : r.length = 32) (hb : ∀ b ∈ r, b < 256) (hb' : ∀ b ∈ r', b < 256) :
    (generatePkce r).2 = base64urlNoPad (sha256 (asciiBytes (generatePkce r).1)) ∧
    '=' ∉ (generatePkce r).2.data ∧
    (generatePkce r).1.data.length = 64 ∧
    ((generatePkce r').1 = (generatePkce r).1 → r' = r) ∧
    (buildAuthUrl (generatePkce r).2 st).params =
      [("client_id", CLIENT_ID), ("response_type", "code"),
       ("redirect_uri", REDIRECT_URI), ("scope", String.intercalate " " SCOPES),
       ("code_challenge", (generatePkce r).2), ("code_challenge_method", "S256"),
       ("state", st), ("access_type", "offline"), ("prompt", "consent")] ∧
    (buildAuthUrl (generatePkce r).2 st).params.lookup "code_challenge" =
      some (generatePkce r).2 ∧
    (buildAuthUrl (generatePkce r).2 st).params.lookup "state" = some st := by
  refine ⟨rfl, base64urlChunks_no_pad _, ?_, ?_, rfl, ?_, ?_⟩
  · show (hexEncodeBytes r).length = 64
    rw [hexEncodeBytes_length, hr]
  · intro h
    exact hexEncodeBytes_inj r' r hb' hb (congrArg String.data h)
  · rfl
  · rfl

set_option maxRecDepth 40000 in
/-- C8 witness: the theorem applied to two concrete 32-byte draws, plus a
concrete evaluation of the pair showing the challenge is the base64url
SHA-256 digest of the hex verifier (cross-checked against an independent
reference implementation). -/
theorem pkce_challenge_and_authUrl_witness :
    ((generatePkce (List.range 32)).2 =
      base64urlNoPad (sha256 (asciiBytes (generatePkce (List.range 32)).1)) ∧
    '=' ∉ (generatePkce (List.range 32)).2.data ∧
    (generatePkce (List.range 32)).1.data.length = 64 ∧
    ((generatePkce (List.replicate 32 0)).1 = (generatePkce (List.range 32)).1 →
      List.replicate 32 0 = List.range 32) ∧
    (buildAuthUrl (generatePkce (List.range 32)).2 "state-token-1").params =
      [("client_id", CLIENT_ID), ("response_type", "code"),
       ("redirect_uri", REDIRECT_URI), ("scope", String.intercalate " " SCOPES),
       ("code_challenge", (generatePkce (List.range 32)).2),
       ("code_challenge_method", "S256"),
       ("state", "state-token-1"), ("access_type", "offline"),
       ("prompt", "consent")] ∧
    (buildAuthUrl (generatePkce (List.range 32)).2 "state-token-1").params.lookup
      "code_challenge" = some (generatePkce (List.range 32)).2 ∧
    (buildAuthUrl (generatePkce (List.range 32)).2 "state-token-1").params.lookup
      "state" = some "state-token-1") ∧
    (generatePkce (List.range 32)).1 =
      "000102030405060708090a0b0c0d0e0f101112131415161718191a1b1c1d1e1f" ∧
    (generatePkce (List.range 32)).2 = "bIbGqsX7JLz12ZOct9fVZFzjlBj0SeA7Ji3U-hS0uSs" :=
  ⟨pkce_challenge_and_authUrl (List.range 32) (List.replicate 32 0) "state-token-1"
    (by decide) (by decide) (by decide), by decide, by decide⟩

/-- C9: `fetchProjectId` returns the identifier extracted from the first
discovery endpoint, in the fixed priority order, whose response is a
success carrying a recognizable identifier (a bare string field, or an
object field with a truthy `id`); when no endpoint yields one — network
error, non-success status, or no usable identifier — it returns the
hardcoded default project id, so it is total and discovery failure never
escalates. -/
theorem fetchProjectId_first_hit_or_default (net : String → DiscoveryOutcome) :
    fetchProjectId net =
      (CODE_ASSIST_ENDPOINTS.findSome? fun e => extractProjectId (net e)).getD
        DEFAULT_PROJECT_ID ∧
    (fetchProjectId net = DEFAULT_PROJECT_ID ∨
      ∃ e ∈ CODE_ASSIST_ENDPOINTS, extractProjectId (net e) = some (fetchProjectId net)) :=
  ⟨fetchProjectIdFrom_eq_findSome net CODE_ASSIST_ENDPOINTS,
   fetchProjectIdFrom_hit_or_default net CODE_ASSIST_ENDPOINTS⟩

end OpenPM
